import Mathlib

/-!
Verification of the core game-session logic of the gamertime repository
(src/app/game_logic/clicker_game.py, trivia_game.py, buzzer_game.py and
src/app/utils/storage.py), shallowly embedded in Lean 4.

Modelling conventions, uniform across the file:
* Python `dict` score tables are association lists `List (String × Int)`
  with unique keys; updating an existing key keeps its position, a new
  key is appended at the end (CPython insertion-ordered dict semantics).
* Python `set`s of player ids are lists of distinct ids; `len` becomes
  `List.length`, membership becomes list membership (iteration order of
  these sets is never used by the code).
* `time.time()` values and all derived millisecond quantities are `Int`
  (supplied as an explicit `now` argument where the code reads the clock).
* Each `async` handler is embedded as a pure function from the session
  state (plus the externally looked-up player name and the clock) to
  `result × state' × broadcast events`: the synchronous prefix of the
  coroutine up to its first genuine suspension point.  `storage.publish`
  calls become elements of the returned event list, carrying the event
  name and exactly the payload fields the properties below refer to.
* `await storage.get_lobby(...)` player-name lookups are passed in as a
  `name` argument; they read state not owned by the session.
-/

/-- Broadcast events, by wire name, with the payload fields the verified
properties mention. -/
inductive Event where
  | game_started
  | new_question (question_number : Nat)
  | new_round (round_number : Nat)
  | buzzer_cleared
  | buzzer_countdown_start
  | buzzers_live
  | buzz_blocked (player_id : String) (reason : String)
  | player_buzzed (player_id : String) (position : Nat)
  | click_registered (player_id : String) (count : Int)
  | answer_result (player_id : String) (is_correct : Bool) (points_awarded : Int)
  | points_awarded (player_id : String) (new_total : Int)
  | time_up
  | tick (time_remaining : Int)
  | game_finished
  | game_stopped
  deriving Repr, DecidableEq

/-- Dict lookup: `scores.get(pid)` / `pid in scores`. -/
def lookupScore (scores : List (String × Int)) (pid : String) : Option Int :=
  match scores with
  | [] => none
  | (k, v) :: rest => if k = pid then some v else lookupScore rest pid

/-- Dict assignment `scores[pid] = v`: update in place when the key
exists, append a fresh entry otherwise (insertion-ordered dict). -/
def setScore (scores : List (String × Int)) (pid : String) (v : Int) :
    List (String × Int) :=
  match scores with
  | [] => [(pid, v)]
  | (k, w) :: rest =>
      if k = pid then (pid, v) :: rest else (k, w) :: setScore rest pid v

theorem lookupScore_setScore_self (scores : List (String × Int)) (pid : String)
    (v : Int) : lookupScore (setScore scores pid v) pid = some v := by
  induction scores with
  | nil => simp [setScore, lookupScore]
  | cons hd tl ih =>
      obtain ⟨k, w⟩ := hd
      by_cases hk : k = pid
      · simp [setScore, lookupScore, hk]
      · simp [setScore, lookupScore, hk, ih]

theorem lookupScore_setScore_ne (scores : List (String × Int)) (pid q : String)
    (v : Int) (hq : q ≠ pid) :
    lookupScore (setScore scores pid v) q = lookupScore scores q := by
  induction scores with
  | nil => simp [setScore, lookupScore, Ne.symm hq]
  | cons hd tl ih =>
      obtain ⟨k, w⟩ := hd
      by_cases hk : k = pid
      · subst hk
        simp [setScore, lookupScore, Ne.symm hq]
      · by_cases hkq : k = q
        · subst hkq
          simp [setScore, lookupScore, hk]
        · simp [setScore, lookupScore, hk, hkq, ih]

namespace Clicker

/-- `ClickerGameState` (src/app/schemas/game_schemas.py lines 38-43):
`duration`, `scores`, `time_remaining` (`Optional[int]`, default `None`),
`is_active`. -/
structure State where
  duration : Int := 10
  scores : List (String × Int) := []
  time_remaining : Option Int := none
  is_active : Bool := false
  deriving Repr, DecidableEq

/-- `ClickerGame.handle_click` (src/app/game_logic/clicker_game.py lines
38-56): reject when inactive or when the player has no score entry;
otherwise increment that player's count and broadcast `click_registered`
with the updated count. -/
def handle_click (s : State) (pid : String) : Bool × State × List Event :=
  if !s.is_active then (false, s, [])
  else
    match lookupScore s.scores pid with
    | none => (false, s, [])
    | some c =>
        let scores := setScore s.scores pid (c + 1)
        (true, { s with scores := scores },
         [Event.click_registered pid (c + 1)])

/-- `ClickerGame.stop_game` (src/app/game_logic/clicker_game.py lines
130-138): cancel the timer task (a scheduler effect outside the session
state), set `is_active = False`, and unconditionally broadcast
`game_stopped`.  There is no guard on the current state. -/
def stop_game (s : State) : State × List Event :=
  ({ s with is_active := false }, [Event.game_stopped])

end Clicker

/-- Dict assignment for the trivia `answers` dict
(`player_id -> answer_index`), same insertion-ordered-dict semantics as
`setScore`. -/
def setAnswer (answers : List (String × Nat)) (pid : String) (v : Nat) :
    List (String × Nat) :=
  match answers with
  | [] => [(pid, v)]
  | (k, w) :: rest =>
      if k = pid then (pid, v) :: rest else (k, w) :: setAnswer rest pid v

namespace Trivia

/-- `TriviaQuestion` (src/app/schemas/game_schemas.py lines 45-50). -/
structure Question where
  question_id : String
  question : String
  options : List String
  correct_answer : Nat
  time_limit : Int := 30
  deriving Repr, DecidableEq

/-- One entry of `state.buzz_times` as built in
`TriviaGame.handle_buzz` (src/app/game_logic/trivia_game.py lines
134-143). -/
structure BuzzInfo where
  player_id : String
  player_name : String
  buzz_time : Int
  time_since_question : Int
  time_diff : Option Int
  position : Nat
  deriving Repr, DecidableEq

/-- `TriviaGameState` (src/app/schemas/game_schemas.py lines 52-62)
together with the `buzz_times` / `question_start_time` attributes the
game code stores on it.  `time_remaining` is `Optional[int]` defaulting
to `None` in the schema; it is modelled as `Int` because every code path
that sets `current_question` (`_next_question`) also sets
`time_remaining` to the question's `time_limit` before any handler
reads it. -/
structure State where
  current_question : Option Question := none
  question_number : Nat := 0
  scores : List (String × Int) := []
  answers : List (String × Nat) := []
  time_remaining : Int := 0
  is_active : Bool := false
  round_locked : Bool := false
  already_answered : List String := []
  buzz_times : List BuzzInfo := []
  question_start_time : Option Int := none
  deriving Repr, DecidableEq

/-- The five `SAMPLE_QUESTIONS` (src/app/game_logic/trivia_game.py lines
12-43), with their correct-answer indices. -/
def sampleQuestions : List Question :=
  [⟨"q1", "What is the capital of France?",
    ["London", "Berlin", "Paris", "Madrid"], 2, 30⟩,
   ⟨"q2", "Which planet is known as the Red Planet?",
    ["Venus", "Mars", "Jupiter", "Saturn"], 1, 30⟩,
   ⟨"q3", "Who painted the Mona Lisa?",
    ["Van Gogh", "Picasso", "Da Vinci", "Monet"], 2, 30⟩,
   ⟨"q4", "What is the largest ocean on Earth?",
    ["Atlantic", "Indian", "Arctic", "Pacific"], 3, 30⟩,
   ⟨"q5", "In which year did World War II end?",
    ["1944", "1945", "1946", "1947"], 1, 30⟩]

/-- `TriviaGame._end_game` (src/app/game_logic/trivia_game.py lines
239-286): deactivate the session and broadcast `game_finished` (the
payload's ranking is descending-score over `scores`; only the event
itself matters to the verified properties).  The lobby-status update is
storage-level, outside the session state. -/
def end_game (s : State) : State × List Event :=
  ({ s with is_active := false }, [Event.game_finished])

/-- `TriviaGame._next_question` (src/app/game_logic/trivia_game.py lines
71-103): when the question index has run past the question list, end the
game (the `question_number >= len(questions)` guard is the `none` case
of the list lookup); otherwise reset the round state — `round_locked`
back to `False`, `already_answered`, `answers` and `buzz_times` cleared,
`question_start_time` set to the clock — install the next question with
its full `time_limit`, and broadcast `new_question` then
`buzzer_cleared`.  The spawned per-question timer task is a scheduler
effect outside the session state. -/
def next_question (questions : List Question) (s : State) (now : Int) :
    State × List Event :=
  match questions[s.question_number]? with
  | none => end_game s
  | some q =>
      ({ s with
          round_locked := false
          already_answered := []
          answers := []
          buzz_times := []
          question_start_time := some now
          current_question := some q
          time_remaining := q.time_limit },
       [Event.new_question (s.question_number + 1), Event.buzzer_cleared])

/-- `TriviaGame.start_game` (src/app/game_logic/trivia_game.py lines
54-69): zero every player's score, activate the session, reset the
question index, broadcast `game_started`, then present the first
question.  `players` is the `(player_id, name)` roster. -/
def start_game (questions : List Question) (players : List (String × String))
    (now : Int) : State × List Event :=
  let s : State :=
    { scores := players.map fun p => (p.1, 0)
      is_active := true
      question_number := 0 }
  let r := next_question questions s now
  (r.1, Event.game_started :: r.2)

/-- `TriviaGame.handle_buzz` (src/app/game_logic/trivia_game.py lines
105-161): reject when the session is inactive or no question is current,
or when the player already buzzed this question; otherwise add the
player to `already_answered`, append a `BuzzInfo` record (position =
previous buzz count + 1, timing in milliseconds relative to question
start and to the round's first buzz) and broadcast `player_buzzed` with
position `len(already_answered)`.  Note: nothing here (or anywhere else
in the code) assigns `round_locked = True`. -/
def handle_buzz (s : State) (pid name : String) (now : Int) :
    Bool × State × List Event :=
  if !s.is_active then (false, s, [])
  else
    match s.current_question with
    | none => (false, s, [])
    | some _q =>
        if pid ∈ s.already_answered then (false, s, [])
        else
          let already := s.already_answered ++ [pid]
          let tsq : Int := now - ((s.question_start_time).getD now)
          let tdiff : Option Int :=
            match s.buzz_times with
            | [] => none
            | b :: _ => some ((now - b.buzz_time) * 1000)
          let info : BuzzInfo :=
            { player_id := pid
              player_name := name
              buzz_time := now
              time_since_question := tsq * 1000
              time_diff := tdiff
              position := s.buzz_times.length + 1 }
          (true,
           { s with
              already_answered := already
              buzz_times := s.buzz_times ++ [info] },
           [Event.player_buzzed pid already.length])

/-- `TriviaGame.handle_answer` (src/app/game_logic/trivia_game.py lines
163-208), up to its suspension point: reject when the session is
inactive or no question is current, or when `round_locked` is `False`,
or when the player has not buzzed this question; otherwise record the
answer, on a correct answer add
`max(100 - (time_limit - time_remaining) * 5, 50)` to the answerer's
score, and broadcast `answer_result` (points_awarded 0 when incorrect).
The `none` branch of the score lookup is a Python `KeyError`
(`scores[player_id] += points` with no entry); it is unreachable when
the answerer was given a score entry at `start_game`.  The 3-second
delayed advance to the next question after the broadcast
(`await asyncio.sleep(3)`) is the separate step `next_question`. -/
def handle_answer (s : State) (pid _name : String) (answer_index : Nat) :
    Bool × State × List Event :=
  if !s.is_active then (false, s, [])
  else
    match s.current_question with
    | none => (false, s, [])
    | some q =>
        if !s.round_locked ∨ pid ∉ s.already_answered then (false, s, [])
        else
          let answers := setAnswer s.answers pid answer_index
          let is_correct : Bool := answer_index = q.correct_answer
          let points : Int :=
            max (100 - (q.time_limit - s.time_remaining) * 5) 50
          let scores :=
            if is_correct then
              match lookupScore s.scores pid with
              | some c => setScore s.scores pid (c + points)
              | none => s.scores
            else s.scores
          (true,
           { s with answers := answers, scores := scores },
           [Event.answer_result pid is_correct
             (if is_correct then points else 0)])

/-- `TriviaGame.stop_game` (src/app/game_logic/trivia_game.py lines
288-296): cancel the timer task, deactivate, unconditionally broadcast
`game_stopped`. -/
def stop_game (s : State) : State × List Event :=
  ({ s with is_active := false }, [Event.game_stopped])

end Trivia

namespace Buzzer

/-- One entry of `state.buzz_times` as built in
`BuzzerGame.handle_buzz` (src/app/game_logic/buzzer_game.py lines
150-158). -/
structure BuzzInfo where
  player_id : String
  player_name : String
  buzz_time : Int
  time_since_live : Int
  time_diff : Option Int
  position : Nat
  deriving Repr, DecidableEq

/-- The buzzer gate sub-state; `state.buzzer_status` only ever holds the
strings "disabled", "countdown" and "live". -/
inductive Gate where
  | disabled
  | countdown
  | live
  deriving Repr, DecidableEq

/-- `BuzzerGameState`: the class is imported from
`app.schemas.game_schemas` but absent from that file, so its fields are
taken from their initialization and use throughout
src/app/game_logic/buzzer_game.py: `is_active`, `round_number`,
`scores`, `already_buzzed` (a set), `buzz_times` (a list),
`round_start_time`, `buzzer_status`, `buzzer_live_time`,
`countdown_start_time`.  Defaults are the values `start_game` /
`new_round` establish before any handler runs. -/
structure State where
  is_active : Bool := false
  round_number : Nat := 0
  scores : List (String × Int) := []
  already_buzzed : List String := []
  buzz_times : List BuzzInfo := []
  round_start_time : Option Int := none
  buzzer_status : Gate := Gate.disabled
  buzzer_live_time : Option Int := none
  countdown_start_time : Option Int := none
  deriving Repr, DecidableEq

/-- `BuzzerGame.new_round` (src/app/game_logic/buzzer_game.py lines
38-65): no-op when the session is inactive; otherwise increment the
round counter, clear `already_buzzed` and `buzz_times`, stamp
`round_start_time`, reset the gate to disabled and clear both gate
timestamps, then broadcast `new_round` and `buzzer_cleared`.  Scores
are untouched. -/
def new_round (s : State) (now : Int) : State × List Event :=
  if !s.is_active then (s, [])
  else
    ({ s with
        round_number := s.round_number + 1
        already_buzzed := []
        buzz_times := []
        round_start_time := some now
        buzzer_status := Gate.disabled
        buzzer_live_time := none
        countdown_start_time := none },
     [Event.new_round (s.round_number + 1), Event.buzzer_cleared])

/-- `BuzzerGame.start_game` (src/app/game_logic/buzzer_game.py lines
19-36): activate, zero the round counter, zero every player's score,
broadcast `game_started`, then start the first round. -/
def start_game (players : List (String × String)) (s : State) (now : Int) :
    State × List Event :=
  let s1 : State :=
    { s with
        is_active := true
        round_number := 0
        scores := players.foldl (fun sc p => setScore sc p.1 0) s.scores }
  let r := new_round s1 now
  (r.1, Event.game_started :: r.2)

/-- `BuzzerGame.buzzer_live` (src/app/game_logic/buzzer_game.py lines
67-83): no-op unless the session is active and the gate is disabled;
otherwise the gate enters the 3-second countdown (stamped), and
`buzzer_countdown_start` is broadcast.  The countdown task itself is
`run_buzzer_countdown`. -/
def buzzer_live (s : State) (now : Int) : State × List Event :=
  if !s.is_active ∨ s.buzzer_status ≠ Gate.disabled then (s, [])
  else
    ({ s with
        buzzer_status := Gate.countdown
        countdown_start_time := some now },
     [Event.buzzer_countdown_start])

/-- Completion of `BuzzerGame._run_buzzer_countdown`
(src/app/game_logic/buzzer_game.py lines 85-108): after broadcasting the
three per-second countdown ticks, the gate goes live with the activation
timestamp and `buzzers_live` is broadcast.  (The intermediate
`buzzer_countdown_tick` broadcasts and sleeps are the scheduler's
per-second work; this function is the state transition the task applies
when it completes uncancelled.) -/
def countdown_complete (s : State) (now : Int) : State × List Event :=
  ({ s with
      buzzer_status := Gate.live
      buzzer_live_time := some now },
   [Event.buzzers_live])

/-- `BuzzerGame.handle_buzz` (src/app/game_logic/buzzer_game.py lines
110-174): reject silently when inactive; reject with a `buzz_blocked`
(reason "early_buzz") broadcast and no state change when the gate is not
live; reject silently when the player already buzzed this round;
otherwise add the player to `already_buzzed`, append a `BuzzInfo` record
(position = previous buzz count + 1, timing in milliseconds since the
gate went live and since the round's first buzz) and broadcast
`player_buzzed` with that position. -/
def handle_buzz (s : State) (pid name : String) (now : Int) :
    Bool × State × List Event :=
  if !s.is_active then (false, s, [])
  else if s.buzzer_status ≠ Gate.live then
    (false, s, [Event.buzz_blocked pid "early_buzz"])
  else if pid ∈ s.already_buzzed then (false, s, [])
  else
    let tsl : Int := now - ((s.buzzer_live_time).getD now)
    let tdiff : Option Int :=
      match s.buzz_times with
      | [] => none
      | b :: _ => some ((now - b.buzz_time) * 1000)
    let info : BuzzInfo :=
      { player_id := pid
        player_name := name
        buzz_time := now
        time_since_live := tsl * 1000
        time_diff := tdiff
        position := s.buzz_times.length + 1 }
    (true,
     { s with
        already_buzzed := s.already_buzzed ++ [pid]
        buzz_times := s.buzz_times ++ [info] },
     [Event.player_buzzed pid info.position])

/-- `BuzzerGame.award_points` (src/app/game_logic/buzzer_game.py lines
176-205): reject when inactive; otherwise, if the player has no score
entry, create one at 0 first; add `points` (any integer the host sends)
to the entry, and broadcast `points_awarded` with the new total. -/
def award_points (s : State) (pid _name : String) (points : Int) :
    Bool × State × List Event :=
  if !s.is_active then (false, s, [])
  else
    let scores0 :=
      match lookupScore s.scores pid with
      | some _ => s.scores
      | none => setScore s.scores pid 0
    let newTotal : Int := (lookupScore scores0 pid).getD 0 + points
    let scores1 := setScore scores0 pid newTotal
    (true, { s with scores := scores1 },
     [Event.points_awarded pid newTotal])

/-- `BuzzerGame.end_game` (src/app/game_logic/buzzer_game.py lines
218-252): deactivate and unconditionally broadcast `game_finished`
(payload ranking by descending cumulative score). -/
def end_game (s : State) : State × List Event :=
  ({ s with is_active := false }, [Event.game_finished])

/-- `BuzzerGame.stop_game` (src/app/game_logic/buzzer_game.py lines
254-259): deactivate and unconditionally broadcast `game_stopped`.
There is no guard on the current state. -/
def stop_game (s : State) : State × List Event :=
  ({ s with is_active := false }, [Event.game_stopped])

end Buzzer

namespace Storage

/-- The per-connection send loop of `InMemoryStorage.publish`
(src/app/utils/storage.py lines 93-99): iterate over the room's
connections, attempt `ws.send_json` on each, and collect the
connections whose send raised into `disconnected`; a failure never
aborts the loop.  Connections are identified abstractly by `String`;
`fails c = true` means the send to `c` raises. -/
def sendLoop (conns : List String) (fails : String → Bool) : List String :=
  match conns with
  | [] => []
  | c :: rest =>
      if fails c then c :: sendLoop rest fails else sendLoop rest fails

/-- `InMemoryStorage.publish` for one room
(src/app/utils/storage.py lines 85-107): run the send loop over every
registered connection, then discard exactly the collected failed
connections from the registry.  Returns the list of connections
delivery was attempted to (in iteration order) and the connections
still registered afterwards.  (`ws_routes.broadcast_to_room`, lines
255-272, is the same loop with set subtraction for the removal.)  The
function is total: no branch propagates an exception to the caller. -/
def publish (conns : List String) (fails : String → Bool) :
    List String × List String :=
  let disconnected := sendLoop conns fails
  (conns, conns.filter fun c => !(disconnected.contains c))

end Storage

/-- Number of terminal broadcasts (`game_finished` or `game_stopped`) in
an event trace. -/
def countTerminalEvents (evs : List Event) : Nat :=
  evs.countP fun e =>
    match e with
    | Event.game_finished => true
    | Event.game_stopped => true
    | _ => false

/-- The recorded ranks of a buzzer round are exactly 1..N in insertion
order. -/
@[reducible] def ranksOk (l : List Buzzer.BuzzInfo) : Prop :=
  l.map (fun b => b.position) = List.range' 1 l.length

/-- Well-formedness of a buzzer round: ranks are 1..N in order, no
player occurs twice in the buzz list, and every recorded buzzer is in
the `already_buzzed` set. -/
@[reducible] def RoundInv (s : Buzzer.State) : Prop :=
  ranksOk s.buzz_times ∧
  (s.buzz_times.map (fun b => b.player_id)).Nodup ∧
  ∀ b ∈ s.buzz_times, b.player_id ∈ s.already_buzzed

/-- Score-table monotonicity: every player with an entry in `old` still
has an entry in `new`, at least as large. -/
def scoresMono (old new : List (String × Int)) : Prop :=
  ∀ q v, lookupScore old q = some v →
    ∃ v', lookupScore new q = some v' ∧ v ≤ v'

theorem setScore_setScore_same (scores : List (String × Int)) (pid : String)
    (v w : Int) : setScore (setScore scores pid v) pid w = setScore scores pid w := by
  induction scores with
  | nil => simp [setScore]
  | cons hd tl ih =>
      obtain ⟨k, u⟩ := hd
      by_cases hk : k = pid
      · simp [setScore, hk]
      · simp [setScore, hk, ih]

theorem setScore_of_lookup_none (scores : List (String × Int)) (pid : String)
    (v : Int) (h : lookupScore scores pid = none) :
    setScore scores pid v = scores ++ [(pid, v)] := by
  induction scores with
  | nil => simp [setScore]
  | cons hd tl ih =>
      obtain ⟨k, u⟩ := hd
      by_cases hk : k = pid
      · simp [lookupScore, hk] at h
      · simp [lookupScore, hk] at h
        simp [setScore, hk, ih h]

theorem score_mono_of_setScore (scores : List (String × Int)) (pid : String)
    (w : Int) (q : String) (v : Int) (hv : lookupScore scores q = some v)
    (hw : q = pid → v ≤ w) :
    ∃ v', lookupScore (setScore scores pid w) q = some v' ∧ v ≤ v' := by
  by_cases hq : q = pid
  · subst hq
    exact ⟨w, lookupScore_setScore_self _ _ _, hw rfl⟩
  · refine ⟨v, ?_, le_refl v⟩
    rw [lookupScore_setScore_ne _ _ _ _ hq]
    exact hv

theorem sendLoop_eq_filter (conns : List String) (fails : String → Bool) :
    Storage.sendLoop conns fails = conns.filter fails := by
  induction conns with
  | nil => simp [Storage.sendLoop]
  | cons c rest ih =>
      by_cases hc : fails c = true
      · simp [Storage.sendLoop, hc, ih, List.filter_cons]
      · simp only [Bool.not_eq_true] at hc
        simp [Storage.sendLoop, hc, ih, List.filter_cons]

/-- C6: for every `click(player_id)` in the Clicker variant: when the
session is active and the player has a score entry `c`, the call returns
true, that player's score becomes `c + 1` (all other players' entries
unchanged), and a single `click_registered` broadcast with the updated
count is published; when the session is inactive or the player is
unknown, the call returns false with no state change and no
broadcast. -/
theorem C6_clicker_click (s : Clicker.State) (pid : String) :
    (∀ c : Int, s.is_active = true → lookupScore s.scores pid = some c →
      Clicker.handle_click s pid =
        (true, { s with scores := setScore s.scores pid (c + 1) },
         [Event.click_registered pid (c + 1)]) ∧
      lookupScore (setScore s.scores pid (c + 1)) pid = some (c + 1) ∧
      ∀ q, q ≠ pid →
        lookupScore (setScore s.scores pid (c + 1)) q =
          lookupScore s.scores q) ∧
    (s.is_active = false ∨ lookupScore s.scores pid = none →
      Clicker.handle_click s pid = (false, s, [])) := by
  constructor
  · intro c hact hc
    refine ⟨?_, lookupScore_setScore_self _ _ _,
      fun q hq => lookupScore_setScore_ne _ _ _ _ hq⟩
    simp [Clicker.handle_click, hact, hc]
  · rintro (hin | hnone)
    · simp [Clicker.handle_click, hin]
    · cases hact : s.is_active with
      | false => simp [Clicker.handle_click, hact]
      | true => simp [Clicker.handle_click, hact, hnone]

/-- Witness for C6 at concrete inputs: an accepted click by "x" (score
3 → 4, one `click_registered` broadcast) and a rejected click on an
inactive session. -/
theorem C6_clicker_click_witness :
    Clicker.handle_click
        { scores := [("x", 3), ("y", 0)], time_remaining := some 5,
          is_active := true } "x" =
      (true,
       { scores := [("x", 4), ("y", 0)], time_remaining := some 5,
         is_active := true },
       [Event.click_registered "x" 4]) ∧
    Clicker.handle_click { scores := [("x", 3)], is_active := false } "x" =
      (false, { scores := [("x", 3)], is_active := false }, []) := by
  constructor
  · have h :=
      ((C6_clicker_click
          { scores := [("x", 3), ("y", 0)], time_remaining := some 5,
            is_active := true } "x").1 3 rfl rfl).1
    simpa [setScore] using h
  · exact (C6_clicker_click { scores := [("x", 3)], is_active := false }
      "x").2 (Or.inl rfl)

/-- C4 counterexample: stopping an already-stopped Clicker session
broadcasts `game_stopped` again, so two consecutive stop calls emit two
terminal broadcasts, not exactly one as the claim states. -/
theorem C4_counterexample :
    ¬ countTerminalEvents
        ((Clicker.stop_game { scores := [("x", 3)], is_active := true }).2 ++
          (Clicker.stop_game
            (Clicker.stop_game
              { scores := [("x", 3)], is_active := true }).1).2) = 1 := by
  decide

/-- C4 amended: once a session is terminal a second stop call raises no
error (the operation is total) and changes no session state, but each
stop call emits its own `game_stopped` broadcast: across two
consecutive stop calls, in the Clicker and Buzzer variants alike, two
terminal broadcasts are emitted (one per call), not one. -/
theorem C4_stop_rebroadcasts (s : Clicker.State) (b : Buzzer.State) :
    (Clicker.stop_game s).2 = [Event.game_stopped] ∧
    (Clicker.stop_game (Clicker.stop_game s).1).1 = (Clicker.stop_game s).1 ∧
    (Clicker.stop_game (Clicker.stop_game s).1).2 = [Event.game_stopped] ∧
    countTerminalEvents
      ((Clicker.stop_game s).2 ++
        (Clicker.stop_game (Clicker.stop_game s).1).2) = 2 ∧
    (Buzzer.stop_game b).2 = [Event.game_stopped] ∧
    (Buzzer.stop_game (Buzzer.stop_game b).1).1 = (Buzzer.stop_game b).1 ∧
    (Buzzer.stop_game (Buzzer.stop_game b).1).2 = [Event.game_stopped] := by
  refine ⟨rfl, rfl, rfl, ?_, rfl, rfl, rfl⟩
  simp [Clicker.stop_game, countTerminalEvents]

/-- C2: in the Buzzer variant, a buzz received while the session is
active but the gate is not live is rejected: it returns false, leaves
the state (buzz list, scores, everything) unchanged, and broadcasts
exactly one `buzz_blocked` event with reason "early_buzz"; and
conversely every accepted buzz (return value true) happens with the
gate live. -/
theorem C2_buzzer_gate (s : Buzzer.State) (pid name : String) (now : Int) :
    (s.is_active = true → s.buzzer_status ≠ Buzzer.Gate.live →
      Buzzer.handle_buzz s pid name now =
        (false, s, [Event.buzz_blocked pid "early_buzz"])) ∧
    ((Buzzer.handle_buzz s pid name now).1 = true →
      s.buzzer_status = Buzzer.Gate.live) := by
  constructor
  · intro hact hng
    simp [Buzzer.handle_buzz, hact, hng]
  · intro h
    cases hact : s.is_active with
    | false => simp [Buzzer.handle_buzz, hact] at h
    | true =>
        by_cases hst : s.buzzer_status = Buzzer.Gate.live
        · exact hst
        · simp [Buzzer.handle_buzz, hact, hst] at h

/-- Witness for C2: a buzz during the countdown of an active session is
rejected with a single `buzz_blocked`/"early_buzz" broadcast and no
state change. -/
theorem C2_buzzer_gate_witness :
    Buzzer.handle_buzz
        { is_active := true, round_number := 1, scores := [("p", 0)],
          buzzer_status := Buzzer.Gate.countdown,
          countdown_start_time := some 100 } "p" "P" 101 =
      (false,
       { is_active := true, round_number := 1, scores := [("p", 0)],
         buzzer_status := Buzzer.Gate.countdown,
         countdown_start_time := some 100 },
       [Event.buzz_blocked "p" "early_buzz"]) :=
  (C2_buzzer_gate
      { is_active := true, round_number := 1, scores := [("p", 0)],
        buzzer_status := Buzzer.Gate.countdown,
        countdown_start_time := some 100 } "p" "P" 101).1 rfl (by decide)

/-- C9: `publish` attempts delivery to every one of the registered
connections (the attempt list is exactly the registration list, in
order, regardless of which sends fail), deregisters exactly the failing
connections while every surviving connection remains registered, and is
a total function — no send failure propagates to the caller. -/
theorem C9_publish_fanout (conns : List String) (fails : String → Bool) :
    (Storage.publish conns fails).1 = conns ∧
    (Storage.publish conns fails).2 = conns.filter (fun c => !(fails c)) := by
  refine ⟨rfl, ?_⟩
  show (conns.filter fun c => !((Storage.sendLoop conns fails).contains c)) =
    conns.filter (fun c => !(fails c))
  rw [sendLoop_eq_filter]
  refine List.filter_congr ?_
  intro c hc
  by_cases hf : fails c = true
  · simp [List.elem_eq_mem, List.mem_filter, hc, hf]
  · simp only [Bool.not_eq_true] at hf
    simp [List.elem_eq_mem, List.mem_filter, hf]

/-- The accepted-buzz branch of `BuzzerGame.handle_buzz`, with the
appended record exhibited. -/
theorem handle_buzz_accept (s : Buzzer.State) (pid name : String) (now : Int)
    (hact : s.is_active = true) (hst : s.buzzer_status = Buzzer.Gate.live)
    (hdup : pid ∉ s.already_buzzed) :
    Buzzer.handle_buzz s pid name now =
      (true,
       { s with
          already_buzzed := s.already_buzzed ++ [pid]
          buzz_times := s.buzz_times ++
            [{ player_id := pid
               player_name := name
               buzz_time := now
               time_since_live := (now - ((s.buzzer_live_time).getD now)) * 1000
               time_diff :=
                 match s.buzz_times with
                 | [] => none
                 | b :: _ => some ((now - b.buzz_time) * 1000)
               position := s.buzz_times.length + 1 }] },
       [Event.player_buzzed pid (s.buzz_times.length + 1)]) := by
  simp [Buzzer.handle_buzz, hact, hst, hdup]

/-- C5: in the Buzzer variant the round's buzz list is append-only (the
handler's output buzz list always extends the input one), a duplicate
buzz by a player already in this round's buzzed set is rejected with no
state change, and the round well-formedness invariant — ranks exactly
1..N in insertion order, each player at most once, every recorded
buzzer in the buzzed set — is preserved by every buzz. -/
theorem C5_buzz_list_invariant (s : Buzzer.State) (pid name : String)
    (now : Int) :
    (∃ t, (Buzzer.handle_buzz s pid name now).2.1.buzz_times =
      s.buzz_times ++ t) ∧
    (pid ∈ s.already_buzzed →
      (Buzzer.handle_buzz s pid name now).1 = false ∧
      (Buzzer.handle_buzz s pid name now).2.1 = s) ∧
    (RoundInv s → RoundInv (Buzzer.handle_buzz s pid name now).2.1) := by
  cases hact : s.is_active with
  | false =>
      have hb : Buzzer.handle_buzz s pid name now = (false, s, []) := by
        simp [Buzzer.handle_buzz, hact]
      rw [hb]
      exact ⟨⟨[], by simp⟩, fun _ => ⟨rfl, rfl⟩, fun h => h⟩
  | true =>
      by_cases hst : s.buzzer_status = Buzzer.Gate.live
      · by_cases hdup : pid ∈ s.already_buzzed
        · have hb : Buzzer.handle_buzz s pid name now = (false, s, []) := by
            simp [Buzzer.handle_buzz, hact, hst, hdup]
          rw [hb]
          exact ⟨⟨[], by simp⟩, fun _ => ⟨rfl, rfl⟩, fun h => h⟩
        · rw [handle_buzz_accept s pid name now hact hst hdup]
          refine ⟨⟨_, rfl⟩, fun h => absurd h hdup, ?_⟩
          intro hinv
          simp only [RoundInv, ranksOk] at hinv ⊢
          obtain ⟨hr, hnd, hmem⟩ := hinv
          have hpid_not : pid ∉ s.buzz_times.map (fun b => b.player_id) := by
            intro hmemp
            obtain ⟨b, hb, hbp⟩ := List.mem_map.mp hmemp
            exact hdup (hbp ▸ hmem b hb)
          refine ⟨?_, ?_, ?_⟩
          · rw [List.map_append, hr, List.length_append]
            simp [List.range'_1_concat, Nat.add_comm]
          · rw [List.map_append]
            refine List.Nodup.append hnd (List.nodup_singleton pid) ?_
            intro x hx hx'
            simp only [List.map_cons, List.map_nil, List.mem_singleton] at hx'
            subst hx'
            exact hpid_not hx
          · intro b hb
            rcases List.mem_append.mp hb with hbl | hbr
            · exact List.mem_append_left _ (hmem b hbl)
            · simp only [List.mem_singleton] at hbr
              subst hbr
              simp
      · have hb : Buzzer.handle_buzz s pid name now =
            (false, s, [Event.buzz_blocked pid "early_buzz"]) := by
          simp [Buzzer.handle_buzz, hact, hst]
        rw [hb]
        exact ⟨⟨[], by simp⟩, fun _ => ⟨rfl, rfl⟩, fun h => h⟩

/-- Witness for C5 on a concrete live round with one prior buzz by "a":
a duplicate buzz by "a" is rejected with no state change, and the round
invariant (ranks 1..N, players distinct, buzzers tracked) holds after a
fresh buzz by "b". -/
theorem C5_buzz_list_invariant_witness :
    ((Buzzer.handle_buzz
        { is_active := true, round_number := 1,
          scores := [("a", 0), ("b", 0)], already_buzzed := ["a"],
          buzz_times :=
            [{ player_id := "a", player_name := "A", buzz_time := 105,
               time_since_live := 5000, time_diff := none, position := 1 }],
          round_start_time := some 90, buzzer_status := Buzzer.Gate.live,
          buzzer_live_time := some 100 } "a" "A" 106).1 = false ∧
      (Buzzer.handle_buzz
        { is_active := true, round_number := 1,
          scores := [("a", 0), ("b", 0)], already_buzzed := ["a"],
          buzz_times :=
            [{ player_id := "a", player_name := "A", buzz_time := 105,
               time_since_live := 5000, time_diff := none, position := 1 }],
          round_start_time := some 90, buzzer_status := Buzzer.Gate.live,
          buzzer_live_time := some 100 } "a" "A" 106).2.1 =
        { is_active := true, round_number := 1,
          scores := [("a", 0), ("b", 0)], already_buzzed := ["a"],
          buzz_times :=
            [{ player_id := "a", player_name := "A", buzz_time := 105,
               time_since_live := 5000, time_diff := none, position := 1 }],
          round_start_time := some 90, buzzer_status := Buzzer.Gate.live,
          buzzer_live_time := some 100 }) ∧
    RoundInv (Buzzer.handle_buzz
        { is_active := true, round_number := 1,
          scores := [("a", 0), ("b", 0)], already_buzzed := ["a"],
          buzz_times :=
            [{ player_id := "a", player_name := "A", buzz_time := 105,
               time_since_live := 5000, time_diff := none, position := 1 }],
          round_start_time := some 90, buzzer_status := Buzzer.Gate.live,
          buzzer_live_time := some 100 } "b" "B" 106).2.1 :=
  ⟨(C5_buzz_list_invariant
      { is_active := true, round_number := 1,
        scores := [("a", 0), ("b", 0)], already_buzzed := ["a"],
        buzz_times :=
          [{ player_id := "a", player_name := "A", buzz_time := 105,
             time_since_live := 5000, time_diff := none, position := 1 }],
        round_start_time := some 90, buzzer_status := Buzzer.Gate.live,
        buzzer_live_time := some 100 } "a" "A" 106).2.1 (by decide),
   (C5_buzz_list_invariant
      { is_active := true, round_number := 1,
        scores := [("a", 0), ("b", 0)], already_buzzed := ["a"],
        buzz_times :=
          [{ player_id := "a", player_name := "A", buzz_time := 105,
             time_since_live := 5000, time_diff := none, position := 1 }],
        round_start_time := some 90, buzzer_status := Buzzer.Gate.live,
        buzzer_live_time := some 100 } "b" "B" 106).2.2 (by decide)⟩

/-- C8: `new_round` on an active Buzzer session clears the round's buzz
list and the set of players who have buzzed, returns the gate to
disabled, clears the live and countdown timestamps, and leaves the
cumulative scores unchanged. -/
theorem C8_new_round_reset (s : Buzzer.State) (now : Int)
    (hact : s.is_active = true) :
    (Buzzer.new_round s now).1.buzz_times = [] ∧
    (Buzzer.new_round s now).1.already_buzzed = [] ∧
    (Buzzer.new_round s now).1.buzzer_status = Buzzer.Gate.disabled ∧
    (Buzzer.new_round s now).1.buzzer_live_time = none ∧
    (Buzzer.new_round s now).1.countdown_start_time = none ∧
    (Buzzer.new_round s now).1.scores = s.scores := by
  simp [Buzzer.new_round, hact]

/-- Witness for C8 on a concrete mid-round active session. -/
theorem C8_new_round_reset_witness :
    (Buzzer.new_round
      { is_active := true, round_number := 2, scores := [("a", 7)],
        already_buzzed := ["a"],
        buzz_times :=
          [{ player_id := "a", player_name := "A", buzz_time := 105,
             time_since_live := 5000, time_diff := none, position := 1 }],
        round_start_time := some 90, buzzer_status := Buzzer.Gate.live,
        buzzer_live_time := some 100 } 200).1.buzz_times = [] ∧
    (Buzzer.new_round
      { is_active := true, round_number := 2, scores := [("a", 7)],
        already_buzzed := ["a"],
        buzz_times :=
          [{ player_id := "a", player_name := "A", buzz_time := 105,
             time_since_live := 5000, time_diff := none, position := 1 }],
        round_start_time := some 90, buzzer_status := Buzzer.Gate.live,
        buzzer_live_time := some 100 } 200).1.already_buzzed = [] ∧
    (Buzzer.new_round
      { is_active := true, round_number := 2, scores := [("a", 7)],
        already_buzzed := ["a"],
        buzz_times :=
          [{ player_id := "a", player_name := "A", buzz_time := 105,
             time_since_live := 5000, time_diff := none, position := 1 }],
        round_start_time := some 90, buzzer_status := Buzzer.Gate.live,
        buzzer_live_time := some 100 } 200).1.buzzer_status =
      Buzzer.Gate.disabled ∧
    (Buzzer.new_round
      { is_active := true, round_number := 2, scores := [("a", 7)],
        already_buzzed := ["a"],
        buzz_times :=
          [{ player_id := "a", player_name := "A", buzz_time := 105,
             time_since_live := 5000, time_diff := none, position := 1 }],
        round_start_time := some 90, buzzer_status := Buzzer.Gate.live,
        buzzer_live_time := some 100 } 200).1.buzzer_live_time = none ∧
    (Buzzer.new_round
      { is_active := true, round_number := 2, scores := [("a", 7)],
        already_buzzed := ["a"],
        buzz_times :=
          [{ player_id := "a", player_name := "A", buzz_time := 105,
             time_since_live := 5000, time_diff := none, position := 1 }],
        round_start_time := some 90, buzzer_status := Buzzer.Gate.live,
        buzzer_live_time := some 100 } 200).1.countdown_start_time = none ∧
    (Buzzer.new_round
      { is_active := true, round_number := 2, scores := [("a", 7)],
        already_buzzed := ["a"],
        buzz_times :=
          [{ player_id := "a", player_name := "A", buzz_time := 105,
             time_since_live := 5000, time_diff := none, position := 1 }],
        round_start_time := some 90, buzzer_status := Buzzer.Gate.live,
        buzzer_live_time := some 100 } 200).1.scores = [("a", 7)] :=
  C8_new_round_reset
    { is_active := true, round_number := 2, scores := [("a", 7)],
      already_buzzed := ["a"],
      buzz_times :=
        [{ player_id := "a", player_name := "A", buzz_time := 105,
           time_since_live := 5000, time_diff := none, position := 1 }],
      round_start_time := some 90, buzzer_status := Buzzer.Gate.live,
      buzzer_live_time := some 100 } 200 rfl

/-- C10: `award_points` on an active Buzzer session with a player_id
that has no score entry does not reject: it creates the entry at 0,
adds the points, returns true, broadcasts `points_awarded` with the new
total, and thereby appends a new entry to the score table. -/
theorem C10_award_unknown_player (s : Buzzer.State) (pid name : String)
    (points : Int) (hact : s.is_active = true)
    (hnone : lookupScore s.scores pid = none) :
    Buzzer.award_points s pid name points =
      (true, { s with scores := s.scores ++ [(pid, points)] },
       [Event.points_awarded pid points]) ∧
    lookupScore (s.scores ++ [(pid, points)]) pid = some points := by
  have h1 : setScore s.scores pid points = s.scores ++ [(pid, points)] :=
    setScore_of_lookup_none _ _ _ hnone
  constructor
  · rw [← h1]
    simp [Buzzer.award_points, hact, hnone, lookupScore_setScore_self,
      setScore_setScore_same]
  · rw [← h1]
    exact lookupScore_setScore_self _ _ _

/-- Witness for C10: awarding 10 points to "ghost", who never joined,
on an active session with roster score table [("a", 3)]. -/
theorem C10_award_unknown_player_witness :
    Buzzer.award_points { is_active := true, scores := [("a", 3)] }
        "ghost" "G" 10 =
      (true, { is_active := true, scores := [("a", 3), ("ghost", 10)] },
       [Event.points_awarded "ghost" 10]) :=
  (C10_award_unknown_player { is_active := true, scores := [("a", 3)] }
    "ghost" "G" 10 rfl rfl).1

/-- A score table is monotonically at least itself. -/
theorem scoresMono_refl (sc : List (String × Int)) : scoresMono sc sc :=
  fun _ v hv => ⟨v, hv, le_refl v⟩

/-- C7 counterexample: `award_points` accepts a negative host-supplied
points value, so a core scoring operation can decrement a score — on an
active session with score table [("p", 10)], awarding -5 to "p" leaves
"p" at 5, below its previous value 10. -/
theorem C7_counterexample :
    lookupScore ((Buzzer.award_points
        { is_active := true, scores := [("p", 10)] } "p" "P" (-5)).2.1.scores)
      "p" = some 5 ∧ ¬ ((10 : Int) ≤ 5) := by
  decide

/-- C7 amended: clicker clicks and trivia correct answers never
decrease any player's score (the trivia bonus is at least the floor of
50), and `award_points` is monotone exactly when the host-supplied
points value is non-negative; with a negative value it decrements. -/
theorem C7_scores_monotone (s1 : Clicker.State) (s2 : Trivia.State)
    (s3 : Buzzer.State) (pid name : String) (i : Nat) (points : Int) :
    scoresMono s1.scores (Clicker.handle_click s1 pid).2.1.scores ∧
    scoresMono s2.scores (Trivia.handle_answer s2 pid name i).2.1.scores ∧
    (0 ≤ points →
      scoresMono s3.scores
        (Buzzer.award_points s3 pid name points).2.1.scores) := by
  refine ⟨?_, ?_, ?_⟩
  · cases hact : s1.is_active with
    | false =>
        simp only [Clicker.handle_click, hact, Bool.not_false]
        exact scoresMono_refl _
    | true =>
        cases hc : lookupScore s1.scores pid with
        | none =>
            simp only [Clicker.handle_click, hact, Bool.not_true, hc]
            exact scoresMono_refl _
        | some c =>
            simp only [Clicker.handle_click, hact, Bool.not_true, hc]
            intro q v hv
            refine score_mono_of_setScore _ _ _ _ _ hv ?_
            intro hqp
            subst hqp
            rw [hv] at hc
            obtain rfl : v = c := by injection hc
            omega
  · cases hact : s2.is_active with
    | false =>
        simp only [Trivia.handle_answer, hact, Bool.not_false]
        exact scoresMono_refl _
    | true =>
        cases hq : s2.current_question with
        | none =>
            simp only [Trivia.handle_answer, hact, Bool.not_true, hq]
            exact scoresMono_refl _
        | some q =>
            by_cases hcond :
                (!s2.round_locked) = true ∨ pid ∉ s2.already_answered
            · simp only [Trivia.handle_answer, hact, Bool.not_true, hq,
                if_pos hcond]
              exact scoresMono_refl _
            · simp only [Trivia.handle_answer, hact, Bool.not_true, hq,
                if_neg hcond]
              by_cases hcorr : i = q.correct_answer
              · cases hc : lookupScore s2.scores pid with
                | none =>
                    simp only [hcorr, decide_True, if_true, hc]
                    exact scoresMono_refl _
                | some c =>
                    simp only [hcorr, decide_True, if_true, hc]
                    intro qq v hv
                    refine score_mono_of_setScore _ _ _ _ _ hv ?_
                    intro hqp
                    subst hqp
                    rw [hv] at hc
                    obtain rfl : v = c := by injection hc
                    have hp : (0 : Int) ≤
                        max (100 - (q.time_limit - s2.time_remaining) * 5) 50 :=
                      le_trans (by norm_num) (le_max_right _ _)
                    omega
              · simp only [hcorr, decide_False, if_false]
                exact scoresMono_refl _
  · intro hpts
    cases hact : s3.is_active with
    | false =>
        simp only [Buzzer.award_points, hact, Bool.not_false]
        exact scoresMono_refl _
    | true =>
        cases hc : lookupScore s3.scores pid with
        | none =>
            simp only [Buzzer.award_points, hact, Bool.not_true, hc,
              lookupScore_setScore_self, Option.getD_some,
              setScore_setScore_same]
            intro q v hv
            refine score_mono_of_setScore _ _ _ _ _ hv ?_
            intro hqp
            subst hqp
            rw [hv] at hc
            cases hc
        | some c =>
            simp only [Buzzer.award_points, hact, Bool.not_true, hc,
              Option.getD_some]
            intro q v hv
            refine score_mono_of_setScore _ _ _ _ _ hv ?_
            intro hqp
            subst hqp
            rw [hv] at hc
            obtain rfl : v = c := by injection hc
            omega

/-- Witness for C7 amended: a non-negative award on a concrete active
session preserves score monotonicity. -/
theorem C7_scores_monotone_witness :
    scoresMono [("p", 10)]
      ((Buzzer.award_points { is_active := true, scores := [("p", 10)] }
        "p" "P" 4).2.1.scores) :=
  (C7_scores_monotone {} {} { is_active := true, scores := [("p", 10)] }
    "p" "P" 0 4).2.2 (by decide)

/-- C3: for every answer the Trivia variant accepts (active session,
round locked, answerer among this round's buzzers, answerer holding
score entry c): a correct answer adds exactly
max(100 - (time_limit - time_remaining) * 5, 50) to the answerer's
score and broadcasts `answer_result` with those points; an incorrect
answer leaves every score unchanged and broadcasts `answer_result` with
0 points; with time_limit 30 the formula yields 75 points at
time_remaining 25 and the floor 50 at time_remaining 5. -/
theorem C3_trivia_scoring (s : Trivia.State) (pid name : String) (i : Nat)
    (q : Trivia.Question) (c : Int)
    (hq : s.current_question = some q) (hact : s.is_active = true)
    (hlock : s.round_locked = true) (hbuzz : pid ∈ s.already_answered)
    (hc : lookupScore s.scores pid = some c) :
    (Trivia.handle_answer s pid name i).1 = true ∧
    (i = q.correct_answer →
      lookupScore (Trivia.handle_answer s pid name i).2.1.scores pid =
        some (c + max (100 - (q.time_limit - s.time_remaining) * 5) 50) ∧
      (Trivia.handle_answer s pid name i).2.2 =
        [Event.answer_result pid true
          (max (100 - (q.time_limit - s.time_remaining) * 5) 50)]) ∧
    (i ≠ q.correct_answer →
      (Trivia.handle_answer s pid name i).2.1.scores = s.scores ∧
      (Trivia.handle_answer s pid name i).2.2 =
        [Event.answer_result pid false 0]) ∧
    (q.time_limit = 30 → s.time_remaining = 25 →
      max (100 - (q.time_limit - s.time_remaining) * 5) 50 = 75) ∧
    (q.time_limit = 30 → s.time_remaining = 5 →
      max (100 - (q.time_limit - s.time_remaining) * 5) 50 = 50) := by
  refine ⟨?_, ?_, ?_, ?_, ?_⟩
  · simp [Trivia.handle_answer, hq, hact, hlock, hbuzz]
  · intro hcorr
    constructor
    · simp [Trivia.handle_answer, hq, hact, hlock, hbuzz, hcorr, hc,
        lookupScore_setScore_self]
    · simp [Trivia.handle_answer, hq, hact, hlock, hbuzz, hcorr]
  · intro hcorr
    constructor
    · simp [Trivia.handle_answer, hq, hact, hlock, hbuzz, hcorr]
    · simp [Trivia.handle_answer, hq, hact, hlock, hbuzz, hcorr]
  · intro h1 h2
    rw [h1, h2]
    decide
  · intro h1 h2
    rw [h1, h2]
    decide

/-- Witness for C3 on concrete locked rounds: correct answer at
time_remaining 25 of a 30-second question scores 75; at time_remaining
5 it scores the floor 50; an incorrect answer leaves the table
unchanged. -/
theorem C3_trivia_scoring_witness :
    lookupScore ((Trivia.handle_answer
        { current_question := some
            ⟨"q1", "What is the capital of France?",
              ["London", "Berlin", "Paris", "Madrid"], 2, 30⟩,
          scores := [("p", 0)], time_remaining := 25, is_active := true,
          round_locked := true, already_answered := ["p"],
          question_start_time := some 0 } "p" "P" 2).2.1.scores) "p" =
      some 75 ∧
    lookupScore ((Trivia.handle_answer
        { current_question := some
            ⟨"q1", "What is the capital of France?",
              ["London", "Berlin", "Paris", "Madrid"], 2, 30⟩,
          scores := [("p", 0)], time_remaining := 5, is_active := true,
          round_locked := true, already_answered := ["p"],
          question_start_time := some 0 } "p" "P" 2).2.1.scores) "p" =
      some 50 ∧
    (Trivia.handle_answer
        { current_question := some
            ⟨"q1", "What is the capital of France?",
              ["London", "Berlin", "Paris", "Madrid"], 2, 30⟩,
          scores := [("p", 0)], time_remaining := 25, is_active := true,
          round_locked := true, already_answered := ["p"],
          question_start_time := some 0 } "p" "P" 0).2.1.scores =
      [("p", 0)] := by
  have h25 := C3_trivia_scoring
    { current_question := some
        ⟨"q1", "What is the capital of France?",
          ["London", "Berlin", "Paris", "Madrid"], 2, 30⟩,
      scores := [("p", 0)], time_remaining := 25, is_active := true,
      round_locked := true, already_answered := ["p"],
      question_start_time := some 0 } "p" "P" 2
    ⟨"q1", "What is the capital of France?",
      ["London", "Berlin", "Paris", "Madrid"], 2, 30⟩ 0
    rfl rfl rfl (by decide) rfl
  have h5 := C3_trivia_scoring
    { current_question := some
        ⟨"q1", "What is the capital of France?",
          ["London", "Berlin", "Paris", "Madrid"], 2, 30⟩,
      scores := [("p", 0)], time_remaining := 5, is_active := true,
      round_locked := true, already_answered := ["p"],
      question_start_time := some 0 } "p" "P" 2
    ⟨"q1", "What is the capital of France?",
      ["London", "Berlin", "Paris", "Madrid"], 2, 30⟩ 0
    rfl rfl rfl (by decide) rfl
  have h0 := C3_trivia_scoring
    { current_question := some
        ⟨"q1", "What is the capital of France?",
          ["London", "Berlin", "Paris", "Madrid"], 2, 30⟩,
      scores := [("p", 0)], time_remaining := 25, is_active := true,
      round_locked := true, already_answered := ["p"],
      question_start_time := some 0 } "p" "P" 0
    ⟨"q1", "What is the capital of France?",
      ["London", "Berlin", "Paris", "Madrid"], 2, 30⟩ 0
    rfl rfl rfl (by decide) rfl
  refine ⟨(h25.2.1 rfl).1.trans (by decide),
    (h5.2.1 rfl).1.trans (by decide), (h0.2.2.1 (by decide)).1⟩

/-- `TriviaGame.handle_buzz` never writes `round_locked`: the output
round-lock flag always equals the input one. -/
theorem trivia_buzz_preserves_lock (s : Trivia.State) (pid name : String)
    (now : Int) :
    (Trivia.handle_buzz s pid name now).2.1.round_locked = s.round_locked := by
  cases hact : s.is_active with
  | false => simp [Trivia.handle_buzz, hact]
  | true =>
      cases hq : s.current_question with
      | none => simp [Trivia.handle_buzz, hact, hq]
      | some q =>
          by_cases hdup : pid ∈ s.already_answered
          · simp [Trivia.handle_buzz, hact, hq, hdup]
          · simp [Trivia.handle_buzz, hact, hq, hdup]

/-- With `round_locked` false, `TriviaGame.handle_answer` rejects every
answer: false return, unchanged state, no broadcast. -/
theorem trivia_answer_rejected_of_unlocked (s : Trivia.State)
    (pid name : String) (i : Nat) (h : s.round_locked = false) :
    Trivia.handle_answer s pid name i = (false, s, []) := by
  cases hact : s.is_active with
  | false => simp [Trivia.handle_answer, hact]
  | true =>
      cases hq : s.current_question with
      | none => simp [Trivia.handle_answer, hact, hq]
      | some q => simp [Trivia.handle_answer, hact, hq, h]

/-- C1: the trivia round lock is never acquired.  From any state with
`round_locked` false — and every question is presented with
`round_locked` false, no operation ever sets it — a buzz (accepted or
not) leaves the round unlocked, and every subsequent answer attempt,
including the first buzzer's own, returns false with no state change
and no broadcast.  The claimed behaviour — the first buzz transitions
the round to locked and the first buzzer's answer is then accepted — is
therefore unrealizable in the code. -/
theorem C1_round_never_locked (s : Trivia.State)
    (pid name pid2 name2 : String) (now : Int) (i : Nat)
    (qs : List Trivia.Question) (q : Trivia.Question)
    (hunlocked : s.round_locked = false) :
    (Trivia.handle_buzz s pid name now).2.1.round_locked = false ∧
    (qs[s.question_number]? = some q →
      (Trivia.next_question qs s now).1.round_locked = false) ∧
    Trivia.handle_answer (Trivia.handle_buzz s pid name now).2.1
        pid2 name2 i =
      (false, (Trivia.handle_buzz s pid name now).2.1, []) ∧
    Trivia.handle_answer s pid2 name2 i = (false, s, []) := by
  have hl : (Trivia.handle_buzz s pid name now).2.1.round_locked = false :=
    (trivia_buzz_preserves_lock s pid name now).trans hunlocked
  refine ⟨hl, ?_,
    trivia_answer_rejected_of_unlocked _ pid2 name2 i hl,
    trivia_answer_rejected_of_unlocked _ pid2 name2 i hunlocked⟩
  intro hqs
  simp [Trivia.next_question, hqs]

/-- Witness for C1, the concrete failing run: start the sample trivia
game with Alice and Bob, Alice buzzes first on question 1 (accepted),
then submits the correct answer index 2 — the answer is rejected with
no state change and no broadcast. -/
theorem C1_round_never_locked_witness :
    (Trivia.handle_buzz
        (Trivia.start_game Trivia.sampleQuestions
          [("p1", "Alice"), ("p2", "Bob")] 0).1 "p1" "Alice" 2).1 = true ∧
    Trivia.handle_answer
        (Trivia.handle_buzz
          (Trivia.start_game Trivia.sampleQuestions
            [("p1", "Alice"), ("p2", "Bob")] 0).1 "p1" "Alice" 2).2.1
        "p1" "Alice" 2 =
      (false,
       (Trivia.handle_buzz
          (Trivia.start_game Trivia.sampleQuestions
            [("p1", "Alice"), ("p2", "Bob")] 0).1 "p1" "Alice" 2).2.1,
       []) :=
  ⟨by decide,
   (C1_round_never_locked
      (Trivia.start_game Trivia.sampleQuestions
        [("p1", "Alice"), ("p2", "Bob")] 0).1
      "p1" "Alice" "p1" "Alice" 2 2 []
      ⟨"", "", [], 0, 30⟩ (by decide)).2.2.1⟩
